import Mathlib

/-!
Shallow embedding of the SACCHARIS 2 acquisition / merging engine
(`Cazy_Scrape.py`, `NCBIQueries.py`, `ParseUserSequences.py`,
`utils/FastaHelpers.py`, `utils/UserFastaRename.py`), together with proofs
settling the specification claims about it.

Python dynamic values are modelled explicitly: `Option String` for
possibly-`None` strings (with Python truthiness `pyTruthy`), association
lists in insertion order for `dict`, `Int` for Python integer counters
(which may go negative), and `Except` for exceptions.
-/

/-- Python truthiness of a possibly-None string: `None` and `""` are falsy. -/
def pyTruthy : Option String → Bool
  | none => false
  | some s => s ≠ ""

/-- The first list is a leading segment of the second. -/
def matchesAt : List Char → List Char → Bool
  | [], _ => true
  | _ :: _, [] => false
  | a :: as, b :: bs => a = b && matchesAt as bs

/-- Substring search over character lists. -/
def containsSubList (needle : List Char) : List Char → Bool
  | [] => matchesAt needle []
  | c :: cs => matchesAt needle (c :: cs) || containsSubList needle cs

/-- Python `needle in haystack` for strings (substring containment). -/
def containsSub (needle haystack : String) : Bool :=
  containsSubList needle.toList haystack.toList

/-- Python `str.upper()` on the ASCII letters occurring in domain tags. -/
def upperAscii (s : String) : String :=
  ⟨s.toList.map (fun c => if 'a' ≤ c ∧ c ≤ 'z' then Char.ofNat (c.toNat - 32) else c)⟩

/-! ### Insertion-ordered dictionaries (Python `dict` model) -/

/-- `key in d` for a Python dict modelled as an insertion-ordered
association list. -/
def dmem (k : String) (d : List (String × α)) : Bool :=
  d.any (fun kv => kv.1 = k)

/-- `d[k]` lookup (first matching key). -/
def dlookup (k : String) (d : List (String × α)) : Option α :=
  (d.find? (fun kv => kv.1 = k)).map (fun kv => kv.2)

/-- `d[k] = v`: overwrite in place if the key exists (keeping its
position, as CPython dicts do), otherwise append at the end. -/
def dinsert (k : String) (v : α) (d : List (String × α)) : List (String × α) :=
  if dmem k d then d.map (fun kv => if kv.1 = k then (k, v) else kv)
  else d ++ [(k, v)]

/-- `d.pop(k)`: remove the entry with key `k`. -/
def derase (k : String) (d : List (String × α)) : List (String × α) :=
  d.filter (fun kv => kv.1 ≠ k)

/-- In-place mutation `d[k].field = ...`: rewrite the value at key `k`. -/
def dupdate (k : String) (f : α → α) (d : List (String × α)) : List (String × α) :=
  d.map (fun kv => if kv.1 = k then (kv.1, f kv.2) else kv)

/-- Right-biased dict union `a | b` (entries of `b` overwrite / append). -/
def dunion (a b : List (String × α)) : List (String × α) :=
  b.foldl (fun acc kv => dinsert kv.1 kv.2 acc) a

/-! ### Accession validation (`Cazy_Scrape.valid_genbank`,
`NCBIQueries.valid_genbank_gene`) -/

/-- Python regex `\w` character class (ASCII fragment): letters, digits
and underscore. -/
def isWordChar (c : Char) : Bool :=
  c.isAlphanum || c = '_'

/-- `re.match(r"\w{n}", s)`-style anchored prefix test: the first `n`
characters exist and are word characters. -/
def reMatchW (n : Nat) (l : List Char) : Bool :=
  decide (n ≤ l.length) && (l.take n).all isWordChar

/-- Anchored test for the third regex alternative `\w{12}\.\d+`:
twelve word characters, a literal dot, then at least one digit. -/
def reMatchNR (l : List Char) : Bool :=
  reMatchW 12 l &&
    (match l.drop 12 with
     | '.' :: d :: _ => d.isDigit
     | _ => false)

/-- `Cazy_Scrape.valid_genbank`: `None`/empty rejected, otherwise the
anchored regex `\w{8}|\w{6}|\w{12}\.\d+` is tried (alternatives in source
order). -/
def valid_genbank : Option String → Bool
  | none => false
  | some s =>
    if s = "" then false
    else reMatchW 8 s.toList || reMatchW 6 s.toList || reMatchNR s.toList

/-- `NCBIQueries.valid_genbank_gene`: same nullity check and the same
regex `\w{8}|\w{6}|\w{12}\.\d+` as `valid_genbank`. -/
def valid_genbank_gene : Option String → Bool
  | none => false
  | some s =>
    if s = "" then false
    else reMatchW 8 s.toList || reMatchW 6 s.toList || reMatchNR s.toList

/-! Spec-side definition for claim C8 only: the two accession shapes the
spec documents, written from the claim's words so they can be compared
with the code's `valid_genbank`. -/

/-- Documented generic shape: a 1–3 letter alphabetical prefix, then one
or more digits, then an optional `.` + digits version suffix (whole
string). -/
def documentedGeneric (l : List Char) : Bool :=
  let letters := l.takeWhile Char.isAlpha
  let rest := l.dropWhile Char.isAlpha
  let digits := rest.takeWhile Char.isDigit
  let rest2 := rest.dropWhile Char.isDigit
  decide (1 ≤ letters.length) && decide (letters.length ≤ 3) &&
    decide (1 ≤ digits.length) &&
    (match rest2 with
     | [] => true
     | '.' :: vs => decide (1 ≤ vs.length) && vs.all Char.isDigit
     | _ => false)

/-- Documented non-redundant-protein shape: a two-letter alphabetical
prefix, an underscore, then digits with an optional `.` + digits version
suffix (whole string). -/
def documentedNR (l : List Char) : Bool :=
  match l with
  | a :: b :: '_' :: rest =>
    let digits := rest.takeWhile Char.isDigit
    let rest2 := rest.dropWhile Char.isDigit
    a.isAlpha && b.isAlpha && decide (1 ≤ digits.length) &&
      (match rest2 with
       | [] => true
       | '.' :: vs => decide (1 ≤ vs.length) && vs.all Char.isDigit
       | _ => false)
  | _ => false

/-- A string matches one of the two documented accession shapes. -/
def documentedShape (s : String) : Bool :=
  documentedGeneric s.toList || documentedNR s.toList

/-- The amended description of the validator: the string has at least six
leading word characters. -/
def sixLeadingWordChars (s : String) : Bool :=
  reMatchW 6 s.toList

lemma reMatchW_mono {m n : Nat} (h : n ≤ m) (l : List Char)
    (hm : reMatchW m l = true) : reMatchW n l = true := by
  unfold reMatchW at hm ⊢
  rw [Bool.and_eq_true] at hm ⊢
  refine ⟨by simp only [decide_eq_true_eq] at hm ⊢; omega, ?_⟩
  rw [List.all_eq_true] at hm ⊢
  intro x hx
  apply hm.2
  have : l.take n = (l.take m).take n := by
    rw [List.take_take, Nat.min_eq_left h]
  rw [this] at hx
  exact List.take_subset _ _ hx

lemma valid_genbank_eq_six (s : String) :
    valid_genbank (some s) = sixLeadingWordChars s := by
  unfold valid_genbank sixLeadingWordChars
  by_cases hs : s = ""
  · subst hs; simp [reMatchW]
  · simp only [hs, if_false]
    rcases h6 : reMatchW 6 s.toList with _ | _
    · rcases h8 : reMatchW 8 s.toList with _ | _
      · rcases h12 : reMatchNR s.toList with _ | _
        · simp
        · exfalso
          unfold reMatchNR at h12
          rw [Bool.and_eq_true] at h12
          have := reMatchW_mono (by omega : 6 ≤ 12) s.toList h12.1
          rw [h6] at this; exact Bool.false_ne_true this
      · exfalso
        have := reMatchW_mono (by omega : 6 ≤ 8) s.toList h8
        rw [h6] at this; exact Bool.false_ne_true this
    · simp [h6]

/-- C8 counterexample: the code accepts `"ABCDEF"` (six letters, no
digits), which matches neither documented shape, and rejects `"A1.1"`
and `"A1234.1"`, which both match the documented generic shape (1-letter
prefix + digits + version) — the latter even has length 7, but its sixth
character is `.`, not a word character. So `valid_genbank` does not
return true exactly on the documented shapes. -/
theorem valid_genbank_not_documented_shapes :
    valid_genbank (some "ABCDEF") = true ∧ documentedShape "ABCDEF" = false ∧
    documentedShape "A1.1" = true ∧ valid_genbank (some "A1.1") = false ∧
    documentedShape "A1234.1" = true ∧ valid_genbank (some "A1234.1") = false := by
  refine ⟨by decide, by decide, by decide, by decide, by decide, by decide⟩

/-- C8 (amended): `valid_genbank` returns false on `None` and the empty
string, and returns true exactly when the string has at least six leading
word characters (letters, digits or underscore) — the anchored alternation
`\w{8}|\w{6}|\w{12}\.\d+` collapses to its `\w{6}` case.  That boundary is
incomparable with the two documented shapes: the counterexample exhibits
an accepted string matching neither shape and rejected documented-shape
accessions (whose sixth character is absent or not a word character).
`valid_genbank_gene` is the same function. -/
theorem valid_genbank_spec :
    valid_genbank none = false ∧ valid_genbank (some "") = false ∧
    (∀ s : String, valid_genbank (some s) = sixLeadingWordChars s) ∧
    (∀ o : Option String, valid_genbank_gene o = valid_genbank o) := by
  refine ⟨rfl, by decide, valid_genbank_eq_six, ?_⟩
  intro o
  cases o with
  | none => rfl
  | some s => rfl

/-! ### Catalog scrape (`Cazy_Scrape.cazy_query`) -/

/-- Scrape listing mode (`Cazy_Scrape.Mode`). -/
inductive ScrapeMode
  | CHARACTERIZED
  | ALL_CAZYMES
  | STRUCTURE
deriving DecidableEq

/-- One value of the `cazymes` dict: the Python list
`[protein_name, ec_num, org_name, domain, uniprot, pdb, subfamily]`
(uncharacterized entries carry a 6-element list without the subfamily
slot; the filter only reads indices 1, 3, 4 and 5). -/
structure CazyRec where
  protein_name : String
  ec_num : Option String
  org_name : String
  domain : Option String
  uniprot : Option String
  pdb : Option String
  subfamily : Option String
deriving DecidableEq

/-- One parsed row of a paginated listing page, after the BeautifulSoup
column extraction: `genbank` is the first non-`br` child of the GenBank
column (`none` when the column has no children), `extra_genbanks` the
remaining children recorded as duplicates-to-exclude. -/
structure PageRow where
  genbank : Option String
  extra_genbanks : List String
  protein_name : String
  ec_num : Option String
  org_name : String
  uniprot : Option String
  pdb : Option String
  subfamily : Option String

/-- One tab-separated row of the bulk `<family>.txt` reference list:
class, domain, organism, genbank (CSV fields are always strings, so the
Python `genbank is not None` test is always true). -/
structure FullRow where
  cazyme_class : String
  domain : String
  organism : String
  genbank : String

/-- Mutable state of the paginated characterized-page loop. -/
structure ScrapeState where
  cazymes : List (String × CazyRec)
  genbank_duplicates : List String
  cazy_retrieved : Int
  cazy_added : Int
  cazy_duplicate : Int
  cazy_fragments : Int
  cazy_missing : Int

/-- Processing of one table row of a listing page (`Cazy_Scrape.py`
lines 338-489): count it as retrieved, record extra accession-column
children as duplicates, then either accept it into `cazymes` or count it
into exactly one of the duplicate / fragment / missing buckets. -/
def scrape_row_step (get_fragments : Bool) (st : ScrapeState) (row : PageRow) : ScrapeState :=
  let st := { st with cazy_retrieved := st.cazy_retrieved + 1,
                      genbank_duplicates := st.genbank_duplicates ++ row.extra_genbanks }
  match row.genbank with
  | none => { st with cazy_missing := st.cazy_missing + 1 }
  | some g =>
    if valid_genbank (some g) && !(dmem g st.cazymes) &&
        (get_fragments || !(containsSub "fragment" row.protein_name)) then
      { st with
        cazymes := dinsert g
          ⟨row.protein_name, row.ec_num, row.org_name, none, row.uniprot, row.pdb,
            row.subfamily⟩ st.cazymes,
        cazy_added := st.cazy_added + 1 }
    else if g ≠ "" && dmem g st.cazymes then
      { st with cazy_duplicate := st.cazy_duplicate + 1 }
    else if containsSub "fragment" row.protein_name then
      { st with cazy_fragments := st.cazy_fragments + 1 }
    else
      { st with cazy_missing := st.cazy_missing + 1 }

/-- State of the full-list loop in `ALL_CAZYMES` mode (`all_cazymes` is
an alias of `cazymes` in the source, so there is a single dict). -/
structure AllState where
  cazymes : List (String × CazyRec)
  total_count : Int
  uncharacterized_added : Int
  uncharacterized_duplicate : Int
  unchar_char_duplicate : Int

/-- One row of the bulk list in `ALL_CAZYMES` mode (`Cazy_Scrape.py`
lines 509-534): new accessions become `Uncharacterized` placeholder
records, accessions already present get their domain tag backfilled. -/
def all_row_step (genbank_duplicates : List String) (st : AllState) (row : FullRow) : AllState :=
  let st := { st with total_count := st.total_count + 1 }
  if !(dmem row.genbank st.cazymes) && !(genbank_duplicates.contains row.genbank) &&
      row.genbank ≠ "" then
    { st with
      cazymes := dinsert row.genbank
        ⟨"Uncharacterized " ++ row.cazyme_class, none, row.organism, some row.domain,
          none, none, none⟩ st.cazymes,
      uncharacterized_added := st.uncharacterized_added + 1 }
  else if !(dmem row.genbank st.cazymes) then
    { st with uncharacterized_duplicate := st.uncharacterized_duplicate + 1 }
  else if dmem row.genbank st.cazymes then
    { st with
      cazymes := dupdate row.genbank (fun r => { r with domain := some row.domain }) st.cazymes,
      unchar_char_duplicate := st.unchar_char_duplicate + 1 }
  else
    st

/-- State of the full-list loop outside `ALL_CAZYMES` mode. -/
structure CharFullState where
  cazymes : List (String × CazyRec)
  total_count : Int

/-- One row of the bulk list outside `ALL_CAZYMES` mode
(`Cazy_Scrape.py` lines 540-549): only backfills domain tags. -/
def char_row_step (st : CharFullState) (row : FullRow) : CharFullState :=
  let st := { st with total_count := st.total_count + 1 }
  if dmem row.genbank st.cazymes then
    { st with cazymes := dupdate row.genbank (fun r => { r with domain := some row.domain }) st.cazymes }
  else
    st

/-- The `Domain` enum bitmask values, looked up by upper-cased tag
(`Domain[cazymes[item][3].upper()].value`); `none` models the `KeyError`
raised for an unknown tag. -/
def domainValue (s : String) : Option Nat :=
  match upperAscii s with
  | "ARCHAEA" => some 1
  | "BACTERIA" => some 2
  | "EUKARYOTA" => some 4
  | "VIRUSES" => some 8
  | "UNCLASSIFIED" => some 16
  | _ => none

/-- The `else` branch of the domain filter loop: count the excluded
record as `wrong_domain_characterized` when any of ec / uniprot / pdb is
truthy, as `wrong_domain_uncharacterized` otherwise. -/
def wrong_domain_classify (r : CazyRec)
    (out : List (String × CazyRec) × Int × Int) :
    List (String × CazyRec) × Int × Int :=
  if pyTruthy r.ec_num || pyTruthy r.uniprot || pyTruthy r.pdb then
    (out.1, out.2.1 + 1, out.2.2)
  else
    (out.1, out.2.1, out.2.2 + 1)

/-- Domain filter loop (`Cazy_Scrape.py` lines 551-563): a record is kept
when its domain tag is truthy and its `Domain` bit is set in the mask;
excluded records are counted via `wrong_domain_classify` otherwise.  An
unknown truthy domain tag raises (`KeyError`). -/
def filter_domains (mask : Nat) : List (String × CazyRec) →
    Except String (List (String × CazyRec) × Int × Int)
  | [] => .ok ([], 0, 0)
  | (k, r) :: rest =>
    match r.domain with
    | none => (filter_domains mask rest).map (wrong_domain_classify r)
    | some d =>
      if d = "" then (filter_domains mask rest).map (wrong_domain_classify r)
      else
        match domainValue d with
        | none => .error ("KeyError: " ++ d)
        | some v =>
          if v &&& mask ≠ 0 then
            (filter_domains mask rest).map
              (fun out => ((k, r) :: out.1, out.2.1, out.2.2))
          else
            (filter_domains mask rest).map (wrong_domain_classify r)

/-- The retention predicate of the domain filter, for stating its
correctness: truthy domain tag resolving to an enum member whose bit is
set in the mask. -/
def retainedPred (mask : Nat) (r : CazyRec) : Bool :=
  match r.domain with
  | none => false
  | some d =>
    if d = "" then false
    else
      match domainValue d with
      | none => false
      | some v => v &&& mask ≠ 0

/-- `Cazy_Scrape.cazy_query` from the parsed page rows and the parsed
bulk reference list onward: page loop, full-list pass, domain filter,
statistics list (in source order) and the final consistency warning. -/
def cazy_query (pageRows : List PageRow) (fullRows : List FullRow)
    (scrape_mode : ScrapeMode) (get_fragments : Bool) (domain_mode : Nat) :
    Except String (List (String × CazyRec) × List Int × Bool) :=
  let st := pageRows.foldl (scrape_row_step get_fragments)
    ⟨[], [], 0, 0, 0, 0, 0⟩
  let full :=
    match scrape_mode with
    | .ALL_CAZYMES =>
      let a := fullRows.foldl (all_row_step st.genbank_duplicates) ⟨st.cazymes, 0, 0, 0, 0⟩
      (a.cazymes, a.uncharacterized_added, a.uncharacterized_duplicate,
        a.total_count - a.unchar_char_duplicate)
    | _ =>
      let a := fullRows.foldl char_row_step ⟨st.cazymes, 0⟩
      (a.cazymes, 0, 0, 0)
  match filter_domains domain_mode full.1 with
  | .error e => .error e
  | .ok (domain_cazymes, wdc, wdu) =>
    let stats : List Int :=
      [st.cazy_retrieved, st.cazy_added - wdc, st.cazy_duplicate, st.cazy_fragments,
        st.cazy_missing, wdc, full.2.2.2, full.2.1 - wdu, full.2.2.1, wdu]
    let warned : Bool :=
      decide (st.cazy_retrieved ≠ (st.cazy_added - wdc) + st.cazy_duplicate +
          st.cazy_fragments + st.cazy_missing + wdc) ||
        decide (full.2.2.2 ≠ (full.2.1 - wdu) + full.2.2.1 + wdu)
    .ok (domain_cazymes, stats, warned)

lemma scrape_row_step_inv (gf : Bool) (st : ScrapeState) (row : PageRow)
    (h : st.cazy_retrieved
      = st.cazy_added + st.cazy_duplicate + st.cazy_fragments + st.cazy_missing) :
    (scrape_row_step gf st row).cazy_retrieved
      = (scrape_row_step gf st row).cazy_added + (scrape_row_step gf st row).cazy_duplicate
        + (scrape_row_step gf st row).cazy_fragments
        + (scrape_row_step gf st row).cazy_missing := by
  unfold scrape_row_step
  dsimp only
  repeat' split
  all_goals dsimp only
  all_goals omega

lemma scrape_fold_inv (gf : Bool) (rows : List PageRow) :
    ∀ st : ScrapeState,
      st.cazy_retrieved
        = st.cazy_added + st.cazy_duplicate + st.cazy_fragments + st.cazy_missing →
      (rows.foldl (scrape_row_step gf) st).cazy_retrieved
        = (rows.foldl (scrape_row_step gf) st).cazy_added
          + (rows.foldl (scrape_row_step gf) st).cazy_duplicate
          + (rows.foldl (scrape_row_step gf) st).cazy_fragments
          + (rows.foldl (scrape_row_step gf) st).cazy_missing := by
  induction rows with
  | nil => intro st h; simpa using h
  | cons r rest ih =>
    intro st h
    simp only [List.foldl_cons]
    exact ih _ (scrape_row_step_inv gf st r h)

lemma all_row_step_inv (dups : List String) (st : AllState) (row : FullRow)
    (h : st.total_count
      = st.uncharacterized_added + st.uncharacterized_duplicate + st.unchar_char_duplicate) :
    (all_row_step dups st row).total_count
      = (all_row_step dups st row).uncharacterized_added
        + (all_row_step dups st row).uncharacterized_duplicate
        + (all_row_step dups st row).unchar_char_duplicate := by
  unfold all_row_step
  dsimp only
  repeat' split
  all_goals dsimp only
  all_goals try omega
  all_goals
    exfalso
    rename_i h2 h3
    simp only [Bool.not_eq_true, Bool.not_eq_false] at h2 h3
    rw [h3] at h2
    exact Bool.false_ne_true h2.symm

lemma all_fold_inv (dups : List String) (rows : List FullRow) :
    ∀ st : AllState,
      st.total_count
        = st.uncharacterized_added + st.uncharacterized_duplicate + st.unchar_char_duplicate →
      (rows.foldl (all_row_step dups) st).total_count
        = (rows.foldl (all_row_step dups) st).uncharacterized_added
          + (rows.foldl (all_row_step dups) st).uncharacterized_duplicate
          + (rows.foldl (all_row_step dups) st).unchar_char_duplicate := by
  induction rows with
  | nil => intro st h; simpa using h
  | cons r rest ih =>
    intro st h
    simp only [List.foldl_cons]
    exact ih _ (all_row_step_inv dups st r h)

/-- C1: for every completed catalog scrape (every `cazy_query` run that
returns rather than raises), the returned statistics satisfy both
accounting identities —
`retrieved = accepted + duplicate + fragment + missing + wrong_domain`
over the characterized indices 0..5 and
`uncharacterized_retrieved = uncharacterized_added +
uncharacterized_duplicate + wrong_domain_uncharacterized` over indices
6..9 — and any mismatch would set the warning flag rather than being
silently ignored. -/
theorem cazy_query_accounting (pageRows : List PageRow) (fullRows : List FullRow)
    (scrape_mode : ScrapeMode) (get_fragments : Bool) (domain_mode : Nat)
    (dc : List (String × CazyRec)) (stats : List Int) (warned : Bool)
    (h : cazy_query pageRows fullRows scrape_mode get_fragments domain_mode
      = .ok (dc, stats, warned)) :
    stats[0]! = stats[1]! + stats[2]! + stats[3]! + stats[4]! + stats[5]! ∧
    stats[6]! = stats[7]! + stats[8]! + stats[9]! ∧
    ((stats[0]! ≠ stats[1]! + stats[2]! + stats[3]! + stats[4]! + stats[5]! ∨
      stats[6]! ≠ stats[7]! + stats[8]! + stats[9]!) → warned = true) := by
  unfold cazy_query at h
  set st := pageRows.foldl (scrape_row_step get_fragments) ⟨[], [], 0, 0, 0, 0, 0⟩ with hst
  have hparse : st.cazy_retrieved
      = st.cazy_added + st.cazy_duplicate + st.cazy_fragments + st.cazy_missing := by
    rw [hst]
    exact scrape_fold_inv get_fragments pageRows _ (by simp)
  rcases scrape_mode with _ | _ | _
  all_goals
    dsimp only at h
  case ALL_CAZYMES =>
    set a := fullRows.foldl (all_row_step st.genbank_duplicates) ⟨st.cazymes, 0, 0, 0, 0⟩
      with ha
    have hfull : a.total_count
        = a.uncharacterized_added + a.uncharacterized_duplicate + a.unchar_char_duplicate := by
      rw [ha]
      exact all_fold_inv st.genbank_duplicates fullRows _ (by simp)
    rcases hf : filter_domains domain_mode a.cazymes with e | ⟨ret, wdc, wdu⟩
    · rw [hf] at h; exact absurd h (by simp)
    · rw [hf] at h
      simp only [Except.ok.injEq, Prod.mk.injEq] at h
      obtain ⟨-, hstats, -⟩ := h
      subst hstats
      refine ⟨by simp; try omega, by simp; try omega, ?_⟩
      intro hmis
      rcases hmis with hx | hx
      · exact absurd (by simp; try omega) hx
      · exact absurd (by simp; try omega) hx
  all_goals {
    set a := fullRows.foldl char_row_step ⟨st.cazymes, 0⟩ with ha
    rcases hf : filter_domains domain_mode a.cazymes with e | ⟨ret, wdc, wdu⟩
    · rw [hf] at h; exact absurd h (by simp)
    · rw [hf] at h
      simp only [Except.ok.injEq, Prod.mk.injEq] at h
      obtain ⟨-, hstats, -⟩ := h
      subst hstats
      refine ⟨by simp; try omega, by simp; try omega, ?_⟩
      intro hmis
      rcases hmis with hx | hx
      · exact absurd (by simp; try omega) hx
      · exact absurd (by simp; try omega) hx }

/-- Witness for `cazy_query_accounting`: a one-page, two-row concrete
scrape in all-records mode evaluates to a completed result whose
statistics satisfy both identities. -/
theorem cazy_query_accounting_witness :
    cazy_query
        [⟨some "AAA11111", [], "endoglucanase A", some "3.2.1.4", "Bacillus sp",
          none, none, none⟩]
        [⟨"GH5", "Bacteria", "Bacillus sp", "AAA11111"⟩,
          ⟨"GH5", "Bacteria", "Other sp", "BBB22222"⟩]
        .ALL_CAZYMES false 31
      = .ok
        ([("AAA11111",
            ⟨"endoglucanase A", some "3.2.1.4", "Bacillus sp", some "Bacteria",
              none, none, none⟩),
          ("BBB22222",
            ⟨"Uncharacterized GH5", none, "Other sp", some "Bacteria",
              none, none, none⟩)],
          [1, 1, 0, 0, 0, 0, 1, 1, 0, 0], false) ∧
    (([1, 1, 0, 0, 0, 0, 1, 1, 0, 0] : List Int)[0]!
        = ([1, 1, 0, 0, 0, 0, 1, 1, 0, 0] : List Int)[1]!
          + ([1, 1, 0, 0, 0, 0, 1, 1, 0, 0] : List Int)[2]!
          + ([1, 1, 0, 0, 0, 0, 1, 1, 0, 0] : List Int)[3]!
          + ([1, 1, 0, 0, 0, 0, 1, 1, 0, 0] : List Int)[4]!
          + ([1, 1, 0, 0, 0, 0, 1, 1, 0, 0] : List Int)[5]!) ∧
    (([1, 1, 0, 0, 0, 0, 1, 1, 0, 0] : List Int)[6]!
        = ([1, 1, 0, 0, 0, 0, 1, 1, 0, 0] : List Int)[7]!
          + ([1, 1, 0, 0, 0, 0, 1, 1, 0, 0] : List Int)[8]!
          + ([1, 1, 0, 0, 0, 0, 1, 1, 0, 0] : List Int)[9]!) := by
  have h :
      cazy_query
          [⟨some "AAA11111", [], "endoglucanase A", some "3.2.1.4", "Bacillus sp",
            none, none, none⟩]
          [⟨"GH5", "Bacteria", "Bacillus sp", "AAA11111"⟩,
            ⟨"GH5", "Bacteria", "Other sp", "BBB22222"⟩]
          .ALL_CAZYMES false 31
        = .ok
          ([("AAA11111",
              ⟨"endoglucanase A", some "3.2.1.4", "Bacillus sp", some "Bacteria",
                none, none, none⟩),
            ("BBB22222",
              ⟨"Uncharacterized GH5", none, "Other sp", some "Bacteria",
                none, none, none⟩)],
            [1, 1, 0, 0, 0, 0, 1, 1, 0, 0], false) := by rfl
  have hacc := cazy_query_accounting _ _ _ _ _ _ _ _ h
  exact ⟨h, hacc.1, hacc.2.1⟩

/-! ### Claim C3: how the domain filter counts its exclusions -/

/-- Spec-side definition for claim C3 only, from the claim's words: the
excluded records split into a wrong-domain count (resolvable domain tag
whose bit is not set) and a separate no-resolvable-domain count. -/
def spec_domain_split (mask : Nat) (d : List (String × CazyRec)) : Int × Int :=
  ((d.filter fun kr =>
      pyTruthy kr.2.domain && (domainValue (kr.2.domain.getD "")).isSome &&
        !(retainedPred mask kr.2)).length,
    (d.filter fun kr =>
      !(pyTruthy kr.2.domain && (domainValue (kr.2.domain.getD "")).isSome)).length)

/-- C3 counterexample: the code does not count records with no resolvable
domain tag separately from wrong-domain records.  A characterized record
with no domain tag lands in the first exclusion counter
(`wrong_domain_characterized`), while an uncharacterized record whose
domain tag resolves but has the wrong bit lands in the second counter
(`wrong_domain_uncharacterized`) — the code's two counters split by
characterized-evidence (ec / uniprot / pdb), not by wrong-domain versus
no-domain as the claim states. -/
theorem filter_domains_not_split_by_missing_domain :
    filter_domains 1 [("A1", ⟨"AmyA", some "3.2.1.1", "E coli", none, none, none, none⟩)]
      = .ok ([], 1, 0) ∧
    spec_domain_split 1 [("A1", ⟨"AmyA", some "3.2.1.1", "E coli", none, none, none, none⟩)]
      = (0, 1) ∧
    filter_domains 1
        [("B2", ⟨"Uncharacterized GH5", none, "E coli", some "Bacteria", none, none, none⟩)]
      = .ok ([], 0, 1) ∧
    spec_domain_split 1
        [("B2", ⟨"Uncharacterized GH5", none, "E coli", some "Bacteria", none, none, none⟩)]
      = (1, 0) := by
  exact ⟨rfl, rfl, rfl, rfl⟩

lemma filter_map_classify_ok (mask : Nat) (r : CazyRec) (rest : List (String × CazyRec))
    (ret : List (String × CazyRec)) (wdc wdu : Int)
    (h : (filter_domains mask rest).map (wrong_domain_classify r) = .ok (ret, wdc, wdu)) :
    ∃ w2 u2, filter_domains mask rest = .ok (ret, w2, u2) ∧ wdc + wdu = w2 + u2 + 1 := by
  rcases hrec : filter_domains mask rest with e | ⟨ret2, w2, u2⟩
  all_goals rw [hrec] at h
  · exact absurd h (by simp [Except.map])
  · simp only [Except.map, wrong_domain_classify, Except.ok.injEq] at h
    split at h
    all_goals
      simp only [Prod.mk.injEq] at h
      obtain ⟨h1, h2, h3⟩ := h
      subst h1
      exact ⟨w2, u2, rfl, by omega⟩

lemma filter_map_keep_ok (mask : Nat) (k : String) (r : CazyRec)
    (rest : List (String × CazyRec)) (ret : List (String × CazyRec)) (wdc wdu : Int)
    (h : (filter_domains mask rest).map (fun out => ((k, r) :: out.1, out.2.1, out.2.2))
      = .ok (ret, wdc, wdu)) :
    ∃ ret2, filter_domains mask rest = .ok (ret2, wdc, wdu) ∧ ret = (k, r) :: ret2 := by
  rcases hrec : filter_domains mask rest with e | ⟨ret2, w2, u2⟩
  all_goals rw [hrec] at h
  · exact absurd h (by simp [Except.map])
  · simp only [Except.map, Except.ok.injEq, Prod.mk.injEq] at h
    obtain ⟨h1, h2, h3⟩ := h
    subst h2; subst h3
    exact ⟨ret2, rfl, h1.symm⟩

/-- C3 (amended): after domain-tag backfill, a record is retained iff its
domain tag is truthy and resolves to one of the five enumerated domains
with its bit set in the mask; on a filter run that completes without a
`KeyError`, the retained records are exactly the filter of the input by
that predicate, and retained + excluded-characterized +
excluded-uncharacterized equals the input count.  The two exclusion
counters split by characterized-evidence, not by wrong-domain versus
no-domain. -/
theorem filter_domains_spec (mask : Nat) (d : List (String × CazyRec))
    (ret : List (String × CazyRec)) (wdc wdu : Int)
    (h : filter_domains mask d = .ok (ret, wdc, wdu)) :
    ret = d.filter (fun kr => retainedPred mask kr.2) ∧
    (ret.length : Int) + wdc + wdu = d.length := by
  induction d generalizing ret wdc wdu with
  | nil =>
    simp only [filter_domains, Except.ok.injEq, Prod.mk.injEq] at h
    obtain ⟨h1, h2, h3⟩ := h
    subst h1; subst h2; subst h3
    simp
  | cons kr rest ih =>
    obtain ⟨k, r⟩ := kr
    simp only [filter_domains] at h
    have hfin : retainedPred mask r = false →
        (filter_domains mask rest).map (wrong_domain_classify r) = .ok (ret, wdc, wdu) →
        ret = ((k, r) :: rest).filter (fun kr => retainedPred mask kr.2) ∧
          (ret.length : Int) + wdc + wdu = ((k, r) :: rest).length := by
      intro hpred hmap
      obtain ⟨w2, u2, hrec, hsum⟩ := filter_map_classify_ok mask r rest ret wdc wdu hmap
      obtain ⟨ih1, ih2⟩ := ih _ _ _ hrec
      refine ⟨?_, ?_⟩
      · simp [List.filter_cons, hpred, ih1]
      · simp only [List.length_cons]
        push_cast
        omega
    rcases hd : r.domain with _ | dstr
    · simp only [hd] at h
      exact hfin (by unfold retainedPred; rw [hd]) h
    · simp only [hd] at h
      by_cases he : dstr = ""
      · subst he
        rw [if_pos rfl] at h
        exact hfin (by unfold retainedPred; rw [hd]; simp) h
      · rw [if_neg he] at h
        rcases hv : domainValue dstr with _ | v
        · simp only [hv] at h
          exact absurd h (by simp)
        · simp only [hv] at h
          by_cases hbit : v &&& mask ≠ 0
          · rw [if_pos hbit] at h
            obtain ⟨ret2, hrec, hret⟩ := filter_map_keep_ok mask k r rest ret wdc wdu h
            obtain ⟨ih1, ih2⟩ := ih _ _ _ hrec
            have hpred : retainedPred mask r = true := by
              unfold retainedPred
              rw [hd]
              simp [he, hv, hbit]
            subst hret
            refine ⟨?_, ?_⟩
            · simp [List.filter_cons, hpred, ih1]
            · simp only [List.length_cons]
              push_cast
              omega
          · rw [if_neg hbit] at h
            exact hfin (by unfold retainedPred; rw [hd]; simp [he, hv, hbit]) h

/-- Witness for `filter_domains_spec`: a concrete one-record run with a
matching domain bit retains exactly that record and satisfies the count
identity. -/
theorem filter_domains_spec_witness :
    filter_domains 2
        ([("X1", ⟨"LamB", some "3.2.1.39", "B subtilis", some "Bacteria", none, none, none⟩)]
          : List (String × CazyRec))
      = .ok ([("X1", ⟨"LamB", some "3.2.1.39", "B subtilis", some "Bacteria", none, none, none⟩)],
          0, 0) ∧
    (([("X1", ⟨"LamB", some "3.2.1.39", "B subtilis", some "Bacteria", none, none, none⟩)]
          : List (String × CazyRec))
        = ([("X1", ⟨"LamB", some "3.2.1.39", "B subtilis", some "Bacteria", none, none, none⟩)]
            : List (String × CazyRec)).filter (fun kr => retainedPred 2 kr.2) ∧
      ((([("X1", ⟨"LamB", some "3.2.1.39", "B subtilis", some "Bacteria", none, none, none⟩)]
            : List (String × CazyRec)).length : Int) + 0 + 0
        = (([("X1", ⟨"LamB", some "3.2.1.39", "B subtilis", some "Bacteria", none, none, none⟩)]
            : List (String × CazyRec)).length : Int))) := by
  refine ⟨rfl, filter_domains_spec 2 _ _ _ _ rfl⟩

/-! ### Catalog page fetcher (`Cazy_Scrape.HTMLGetter.get_clean_html_text`) -/

/-- Python `str.replace` on character lists, scanning left to right and
replacing non-overlapping occurrences; `fuel` bounds the recursion by the
haystack length (the needles used are never empty). -/
def replaceListAux (needle repl : List Char) : Nat → List Char → List Char
  | 0, l => l
  | _ + 1, [] => []
  | fuel + 1, c :: cs =>
    if matchesAt needle (c :: cs) then
      repl ++ replaceListAux needle repl fuel (List.drop (needle.length - 1) cs)
    else
      c :: replaceListAux needle repl fuel cs

/-- Python `haystack.replace(needle, repl)` (also `re.sub` on a literal
pattern, which replaces all non-overlapping occurrences). -/
def replacePy (haystack needle repl : String) : String :=
  ⟨replaceListAux needle.toList repl.toList haystack.toList.length haystack.toList⟩

/-- One HTTP response of the remote catalog, indexed by attempt number. -/
structure HttpResp where
  status : Nat
  text : String

/-- `HTMLGetter.get_clean_html_text`: one GET per call; on a non-200
status with `tries < 3` it sleeps 3 seconds and retries, after that it
fails reporting the URL and the final status code; on 200 it applies the
two textual normalizations (`> <` → `><` and `#FFFFFF` → `#ffffff`).
Returns the result together with the list of sleep durations and the
number of GET requests performed. -/
def get_clean_html_text (responses : Nat → HttpResp) (url_cazy : String) (tries : Nat) :
    Except String String × List Nat × Nat :=
  let r := responses tries
  if h : r.status ≠ 200 ∧ tries < 3 then
    let res := get_clean_html_text responses url_cazy (tries + 1)
    (res.1, 3 :: res.2.1, res.2.2 + 1)
  else if r.status ≠ 200 then
    (.error ("Bad HTTP response code " ++ toString r.status ++ " from " ++ url_cazy
        ++ ", max tries exceeded."), [], 1)
  else
    (.ok (replacePy (replacePy r.text "> <" "><") "#FFFFFF" "#ffffff"), [], 1)
termination_by 4 - tries
decreasing_by omega

lemma gcht_persistent_fail (responses : Nat → HttpResp) (url : String)
    (hfail : ∀ i, (responses i).status ≠ 200) :
    get_clean_html_text responses url 0
      = (.error ("Bad HTTP response code " ++ toString (responses 3).status ++ " from "
          ++ url ++ ", max tries exceeded."), [3, 3, 3], 4) := by
  have e3 : get_clean_html_text responses url 3
      = (.error ("Bad HTTP response code " ++ toString (responses 3).status ++ " from "
          ++ url ++ ", max tries exceeded."), [], 1) := by
    rw [get_clean_html_text, dif_neg (by omega), if_pos (hfail 3)]
  have e2 : get_clean_html_text responses url 2
      = (.error ("Bad HTTP response code " ++ toString (responses 3).status ++ " from "
          ++ url ++ ", max tries exceeded."), [3], 2) := by
    rw [get_clean_html_text, dif_pos ⟨hfail 2, by omega⟩]
    norm_num [e3]
  have e1 : get_clean_html_text responses url 1
      = (.error ("Bad HTTP response code " ++ toString (responses 3).status ++ " from "
          ++ url ++ ", max tries exceeded."), [3, 3], 3) := by
    rw [get_clean_html_text, dif_pos ⟨hfail 1, by omega⟩]
    norm_num [e2]
  rw [get_clean_html_text, dif_pos ⟨hfail 0, by omega⟩]
  norm_num [e1]

/-- C6 counterexample: against a server that always returns status 500,
the fetcher performs 4 GET requests in total (3 retries, not 5) with a
constant 3-second delay before each retry (not a `3 * attempt` linear
backoff), then fails reporting the URL and the final status code. -/
theorem get_clean_html_text_not_five_retries :
    get_clean_html_text (fun _ => ⟨500, "x"⟩)
        "http://www.cazy.org/PL9_characterized.html" 0
      = (.error ("Bad HTTP response code 500 from "
          ++ "http://www.cazy.org/PL9_characterized.html, max tries exceeded."),
          [3, 3, 3], 4) ∧
    ([3, 3, 3] : List Nat) ≠ [3, 6, 9, 12, 15] ∧ (4 : Nat) ≠ 1 + 5 := by
  refine ⟨?_, by decide, by decide⟩
  have h := gcht_persistent_fail (fun _ => ⟨500, "x"⟩)
    "http://www.cazy.org/PL9_characterized.html" (fun i => by simp)
  simpa using h

/-- C6 (amended): for every URL whose server persistently returns a
non-200 status (and no transport-level exception), the catalog page
fetcher retries the GET with a constant 3-second delay up to 3 retry
attempts (4 GET requests in total), then fails permanently with an error
reporting the URL and the final status code. -/
theorem get_clean_html_text_retry_contract (responses : Nat → HttpResp) (url : String)
    (hfail : ∀ i, (responses i).status ≠ 200) :
    get_clean_html_text responses url 0
      = (.error ("Bad HTTP response code " ++ toString (responses 3).status ++ " from "
          ++ url ++ ", max tries exceeded."), [3, 3, 3], 4) :=
  gcht_persistent_fail responses url hfail

/-- Witness for `get_clean_html_text_retry_contract` at a concrete
always-503 server. -/
theorem get_clean_html_text_retry_contract_witness :
    get_clean_html_text (fun _ => ⟨503, ""⟩) "http://www.cazy.org/GH5_characterized.html" 0
      = (.error ("Bad HTTP response code 503 from "
          ++ "http://www.cazy.org/GH5_characterized.html, max tries exceeded."),
          [3, 3, 3], 4) := by
  have h := get_clean_html_text_retry_contract (fun _ => ⟨503, ""⟩)
    "http://www.cazy.org/GH5_characterized.html" (fun i => by simp)
  simpa using h

/-! ### Scraper caching (`Cazy_Scrape.main`, lines 585-600) -/

/-- Read a file from the modelled local filesystem (byte content as a
string). -/
def fsRead (fs : List (String × String)) (p : String) : Option String :=
  dlookup p fs

/-- Write a file (overwrite or create): the newest write is consed in
front and shadows earlier writes of the same path under `fsRead`. -/
def fsWrite (fs : List (String × String)) (p c : String) : List (String × String) :=
  (p, c) :: fs

/-- The FASTA output path `<folder>/<family>_<mode>_cazy.fasta`. -/
def cazyFastaPath (cazy_folder family modeName : String) : String :=
  cazy_folder ++ "/" ++ family ++ "_" ++ modeName ++ "_cazy.fasta"

/-- The metadata output path `<folder>/<family>_<mode>_data.json`. -/
def cazyDataPath (cazy_folder family modeName : String) : String :=
  cazy_folder ++ "/" ++ family ++ "_" ++ modeName ++ "_data.json"

/-- The statistics output path `<folder>/<family>_<mode>_stats.json`. -/
def cazyStatsPath (cazy_folder family modeName : String) : String :=
  cazy_folder ++ "/" ++ family ++ "_" ++ modeName ++ "_stats.json"

/-- The outcome of the non-cached path of `Cazy_Scrape.main` (the
`cazy_query` scrape plus the NCBI fetch loop): the serialized contents of
the three output files and how many HTTP calls producing them took. -/
structure ScrapeOutcome where
  fastaData : String
  dataJson : String
  statsJson : String
  httpCalls : Nat

/-- `Cazy_Scrape.main`, file-level behavior: if the FASTA file for the
exact (family, mode) combination exists and `force_update` is not set,
the prior run's data and stats are loaded from disk and returned with no
further HTTP calls; otherwise the scrape runs and its three output files
are written.  Returns the updated filesystem, the returned triple
(fasta path, metadata content, stats content), and the number of HTTP
calls made. -/
def cazy_scrape_main (cazy_folder family modeName : String) (force_update : Bool)
    (scrape : ScrapeOutcome) (fs : List (String × String)) :
    Except String (List (String × String) × (String × String × String) × Nat) :=
  let fasta_file := cazyFastaPath cazy_folder family modeName
  let data_file := cazyDataPath cazy_folder family modeName
  let stats_file := cazyStatsPath cazy_folder family modeName
  if (fsRead fs fasta_file).isSome && !force_update then
    match fsRead fs data_file, fsRead fs stats_file with
    | some cazymes, some stats => .ok (fs, (fasta_file, cazymes, stats), 0)
    | _, _ => .error "FileNotFoundError"
  else
    let fs1 := fsWrite (fsWrite (fsWrite fs fasta_file scrape.fastaData)
      data_file scrape.dataJson) stats_file scrape.statsJson
    .ok (fs1, (fasta_file, scrape.dataJson, scrape.statsJson), scrape.httpCalls)

lemma fsRead_fsWrite_self (fs : List (String × String)) (p c : String) :
    fsRead (fsWrite fs p c) p = some c := by
  simp [fsRead, fsWrite, dlookup]

lemma fsRead_fsWrite_other (fs : List (String × String)) (p c q : String)
    (h : q ≠ p) : fsRead (fsWrite fs p c) q = fsRead fs q := by
  simp only [fsRead, fsWrite, dlookup, List.find?_cons]
  have : ¬(p = q) := fun hc => h hc.symm
  simp [this]

lemma string_append_right_ne (a : String) {s t : String} (h : s ≠ t) :
    a ++ s ≠ a ++ t := by
  intro he
  apply h
  have hd := congrArg String.data he
  simp only [String.data_append] at hd
  have hc := List.append_cancel_left hd
  cases s
  cases t
  exact congrArg String.mk (by simpa using hc)

lemma cazy_paths_ne_fd (f fam m : String) :
    cazyFastaPath f fam m ≠ cazyDataPath f fam m := by
  unfold cazyFastaPath cazyDataPath
  exact string_append_right_ne _ (by decide)

lemma cazy_paths_ne_fs (f fam m : String) :
    cazyFastaPath f fam m ≠ cazyStatsPath f fam m := by
  unfold cazyFastaPath cazyStatsPath
  exact string_append_right_ne _ (by decide)

lemma cazy_paths_ne_ds (f fam m : String) :
    cazyDataPath f fam m ≠ cazyStatsPath f fam m := by
  unfold cazyDataPath cazyStatsPath
  exact string_append_right_ne _ (by decide)

/-- C7: when the scraper's output files for the exact (family, mode)
combination already exist and the force-refresh flag is false, the scrape
is skipped entirely — zero HTTP calls, the filesystem is unchanged, and
the returned results are exactly the prior contents loaded from disk.
Consequently a fresh run followed by a second run against any remote
behavior leaves the filesystem byte-identical, performs zero HTTP calls
the second time, and returns the first run's results. -/
theorem cazy_main_cache_and_idempotence (cazy_folder family modeName : String)
    (scrape scrape2 : ScrapeOutcome) (fs : List (String × String)) :
    (∀ f d s,
      fsRead fs (cazyFastaPath cazy_folder family modeName) = some f →
      fsRead fs (cazyDataPath cazy_folder family modeName) = some d →
      fsRead fs (cazyStatsPath cazy_folder family modeName) = some s →
      cazy_scrape_main cazy_folder family modeName false scrape fs
        = .ok (fs, (cazyFastaPath cazy_folder family modeName, d, s), 0)) ∧
    (fsRead fs (cazyFastaPath cazy_folder family modeName) = none →
      ∃ fs1,
        cazy_scrape_main cazy_folder family modeName false scrape fs
          = .ok (fs1, (cazyFastaPath cazy_folder family modeName,
              scrape.dataJson, scrape.statsJson), scrape.httpCalls) ∧
        cazy_scrape_main cazy_folder family modeName false scrape2 fs1
          = .ok (fs1, (cazyFastaPath cazy_folder family modeName,
              scrape.dataJson, scrape.statsJson), 0)) := by
  constructor
  · intro f d s hf hd hs
    unfold cazy_scrape_main
    rw [if_pos (by rw [hf]; rfl)]
    rw [hd, hs]
  · intro hnone
    refine ⟨fsWrite (fsWrite (fsWrite fs (cazyFastaPath cazy_folder family modeName)
        scrape.fastaData) (cazyDataPath cazy_folder family modeName) scrape.dataJson)
        (cazyStatsPath cazy_folder family modeName) scrape.statsJson, ?_, ?_⟩
    · unfold cazy_scrape_main
      rw [if_neg (by rw [hnone]; simp)]
    · have h1 : fsRead (fsWrite (fsWrite (fsWrite fs
          (cazyFastaPath cazy_folder family modeName) scrape.fastaData)
          (cazyDataPath cazy_folder family modeName) scrape.dataJson)
          (cazyStatsPath cazy_folder family modeName) scrape.statsJson)
          (cazyFastaPath cazy_folder family modeName) = some scrape.fastaData := by
        rw [fsRead_fsWrite_other _ _ _ _ (cazy_paths_ne_fs cazy_folder family modeName),
          fsRead_fsWrite_other _ _ _ _ (cazy_paths_ne_fd cazy_folder family modeName),
          fsRead_fsWrite_self]
      have h2 : fsRead (fsWrite (fsWrite (fsWrite fs
          (cazyFastaPath cazy_folder family modeName) scrape.fastaData)
          (cazyDataPath cazy_folder family modeName) scrape.dataJson)
          (cazyStatsPath cazy_folder family modeName) scrape.statsJson)
          (cazyDataPath cazy_folder family modeName) = some scrape.dataJson := by
        rw [fsRead_fsWrite_other _ _ _ _ (cazy_paths_ne_ds cazy_folder family modeName),
          fsRead_fsWrite_self]
      have h3 : fsRead (fsWrite (fsWrite (fsWrite fs
          (cazyFastaPath cazy_folder family modeName) scrape.fastaData)
          (cazyDataPath cazy_folder family modeName) scrape.dataJson)
          (cazyStatsPath cazy_folder family modeName) scrape.statsJson)
          (cazyStatsPath cazy_folder family modeName) = some scrape.statsJson := by
        rw [fsRead_fsWrite_self]
      unfold cazy_scrape_main
      rw [if_pos (by rw [h1]; rfl)]
      rw [h2, h3]

/-- Witness for `cazy_main_cache_and_idempotence`: starting from an empty
filesystem, the first run writes its files and reports its HTTP calls,
and the second run (even against a different simulated remote) returns
the same results with zero HTTP calls and an unchanged filesystem. -/
theorem cazy_main_cache_and_idempotence_witness :
    ∃ fs1,
      cazy_scrape_main "out" "PL9" "CHARACTERIZED" false ⟨"fa", "da", "st", 7⟩ []
        = .ok (fs1, (cazyFastaPath "out" "PL9" "CHARACTERIZED", "da", "st"), 7) ∧
      cazy_scrape_main "out" "PL9" "CHARACTERIZED" false ⟨"x", "y", "z", 3⟩ fs1
        = .ok (fs1, (cazyFastaPath "out" "PL9" "CHARACTERIZED", "da", "st"), 0) :=
  (cazy_main_cache_and_idempotence "out" "PL9" "CHARACTERIZED"
    ⟨"fa", "da", "st", 7⟩ ⟨"x", "y", "z", 3⟩ []).2 rfl

/-! ### Remote batch sequence fetcher, single query
(`Cazy_Scrape.ncbi_query`; `NCBIQueries.ncbi_single_query` is the same
code) -/

/-- `Cazy_Scrape.format_list`: comma-join the accession list (the
`is not None` guard never fires on the string lists passed in). -/
def format_list (accession_list : List String) : String :=
  let genbank_list := accession_list.foldl (fun acc a => acc ++ a ++ ",") ""
  if genbank_list.length > 0 then ⟨genbank_list.toList.dropLast⟩ else genbank_list

/-- The remote responses one `ncbi_query` call sees: the
`PhraseNotFound` item texts of the first search, the session token
(`QueryKey`/`querykey`) and `WebEnv` of the second search, and the body
of the `efetch` response. -/
structure NCBIResponse where
  notFound : List String
  queryKey : Option String
  webEnv : Option String
  fetchText : String

/-- The not-found removal loop (`Cazy_Scrape.py` lines 169-175): each
`PhraseNotFound` item is removed from the accession list
(`list.remove` raises `ValueError` when absent) and the expected count is
decremented. -/
def remove_not_found (accession_list : List String) (notFound : List String) :
    Except String (List String × Int) :=
  notFound.foldlM
    (fun (st : List String × Int) item =>
      if item ∈ st.1 then .ok (st.1.erase item, st.2 - 1)
      else .error "ValueError: list.remove(x): x not in list")
    (accession_list, (accession_list.length : Int))

/-- `efetch_result.text.count(">")`: the FASTA record count by record
delimiter. -/
def count_gt (s : String) : Nat :=
  s.toList.count '>'

/-- Collapse runs of a repeated character to a single occurrence
(`re.sub("\n+", "\n", ...)` and `re.sub("\|+", "|", ...)`); `prev` is
true when the previous character was the collapsed one. -/
def squeezeCharAux (ch : Char) (prev : Bool) : List Char → List Char
  | [] => []
  | c :: cs =>
    if c = ch then
      if prev then squeezeCharAux ch true cs
      else c :: squeezeCharAux ch true cs
    else c :: squeezeCharAux ch false cs

/-- Python `str.split(sep)` for a single-character separator. -/
def splitOnChar (sep : Char) : List Char → List (List Char)
  | [] => [[]]
  | c :: cs =>
    let r := splitOnChar sep cs
    if c = sep then [] :: r
    else
      match r with
      | [] => [[c]]
      | h :: t => (c :: h) :: t

/-- Python `sep.join(parts)`. -/
def joinSep (sep : String) : List String → String
  | [] => ""
  | [p] => p
  | p :: rest => p ++ sep ++ joinSep sep rest

/-- The per-line composite-header rewrite (`Cazy_Scrape.py` lines
253-263): if the first word contains a pipe, collapse pipe runs, drop the
leading identifier, join the remainder with spaces and prepend `>`. -/
def pipe_fix_line (row : String) : String :=
  let words := (splitOnChar ' ' row.toList).map (fun l => (⟨l⟩ : String))
  match words with
  | [] => row
  | w0 :: rest =>
    if containsSub "|" w0 then
      let w0sq : String := ⟨squeezeCharAux '|' false w0.toList⟩
      let accession_array := (splitOnChar '|' w0sq.toList).map (fun l => (⟨l⟩ : String))
      let w0new := joinSep " " (accession_array.drop 1)
      ">" ++ joinSep " " (w0new :: rest)
    else row

/-- The whole-text composite-header rewrite, applied when any pipe is
present. -/
def pipe_fix (fasta_out : String) : String :=
  if containsSub "|" fasta_out then
    let lines := (splitOnChar '\n' fasta_out.toList).map (fun l => (⟨l⟩ : String))
    joinSep "\n" (lines.map pipe_fix_line)
  else fasta_out

/-- `Cazy_Scrape.ncbi_query` over the abstracted remote responses:
remove not-found accessions, fail hard when no session token is present
(`querykey` in either casing; a missing `WebEnv` crashes with
`AttributeError`), compare the returned FASTA record count with the
expected valid-accession count and fail on mismatch, return the
empty-result marker as `("", 0)`, otherwise post-process (blank-line
collapse and pipe rewrite) and return the FASTA text with the record
count. -/
def ncbi_query (accession_list : List String) (resp : NCBIResponse) :
    Except String (String × Nat) :=
  match remove_not_found accession_list resp.notFound with
  | .error e => .error e
  | .ok (_remaining, valid_accession_count) =>
    if resp.queryKey = none then
      .error "ERROR: NCBI query Key not found. Usually this means query size is too large."
    else if resp.webEnv = none then
      .error "AttributeError: NoneType object has no attribute text"
    else
      let result_count := count_gt resp.fetchText
      if valid_accession_count ≠ (result_count : Int) then
        .error ("Incomplete NCBI query FASTA results: " ++ toString result_count ++ "/"
          ++ toString valid_accession_count ++ " returned")
      else if containsSub "<ERROR>Empty result - nothing to do</ERROR>" resp.fetchText then
        .ok ("", 0)
      else
        let fasta_out : String := ⟨squeezeCharAux '\n' false resp.fetchText.toList⟩
        .ok (pipe_fix fasta_out, result_count)

lemma remove_not_found_fold (nf : List String) :
    ∀ (st : List String × Int) (lst : List String) (cnt : Int),
      nf.foldlM
        (fun (st : List String × Int) item =>
          if item ∈ st.1 then Except.ok (st.1.erase item, st.2 - 1)
          else Except.error "ValueError: list.remove(x): x not in list")
        st = .ok (lst, cnt) →
      cnt = st.2 - nf.length ∧ lst.length + nf.length = st.1.length := by
  induction nf with
  | nil =>
    intro st lst cnt h
    simp only [List.foldlM_nil] at h
    cases st with
    | mk l c =>
      simp only [pure, Except.pure, Except.ok.injEq, Prod.mk.injEq] at h
      obtain ⟨h1, h2⟩ := h
      subst h1; subst h2
      simp
  | cons item nf ih =>
    intro st lst cnt h
    simp only [List.foldlM_cons] at h
    by_cases hm : item ∈ st.1
    · rw [if_pos hm] at h
      simp only [bind, Except.bind] at h
      obtain ⟨h1, h2⟩ := ih _ _ _ h
      dsimp only at h1 h2
      have hlen := List.length_erase_of_mem hm
      have hpos : 1 ≤ st.1.length := List.length_pos.mpr (List.ne_nil_of_mem hm)
      constructor
      · simp only [List.length_cons]
        push_cast at h1 ⊢
        omega
      · simp only [List.length_cons]
        omega
    · rw [if_neg hm] at h
      simp only [bind, Except.bind] at h
      exact absurd h (by simp)

/-- C5: for every sub-batch accession list and remote response, (a) the
search phase removes each not-found accession and decrements the expected
valid-accession count accordingly (when the removal loop completes,
`expected = len(batch) - len(notFound)` and the remaining list shrank by
exactly that amount), (b) a response with no session token is a hard
failure for the sub-batch, and (c) FASTA text is returned only when the
number of returned FASTA records, counted by the `>` record delimiter,
equals the expected valid-accession count — a mismatch raises instead of
returning partial results. -/
theorem ncbi_query_contract (accession_list : List String) (resp : NCBIResponse) :
    (∀ lst cnt, remove_not_found accession_list resp.notFound = .ok (lst, cnt) →
      cnt = (accession_list.length : Int) - resp.notFound.length ∧
      lst.length + resp.notFound.length = accession_list.length) ∧
    (resp.queryKey = none →
      ∀ lst cnt, remove_not_found accession_list resp.notFound = .ok (lst, cnt) →
      ncbi_query accession_list resp
        = .error "ERROR: NCBI query Key not found. Usually this means query size is too large.") ∧
    (∀ txt n, ncbi_query accession_list resp = .ok (txt, n) →
      ∃ lst cnt, remove_not_found accession_list resp.notFound = .ok (lst, cnt) ∧
        (count_gt resp.fetchText : Int) = cnt) := by
  refine ⟨?_, ?_, ?_⟩
  · intro lst cnt h
    have := remove_not_found_fold resp.notFound (accession_list, (accession_list.length : Int))
      lst cnt h
    dsimp only at this
    exact ⟨by omega, this.2⟩
  · intro hkey lst cnt hrm
    unfold ncbi_query
    rw [hrm]
    dsimp only
    rw [if_pos hkey]
  · intro txt n h
    unfold ncbi_query at h
    rcases hrm : remove_not_found accession_list resp.notFound with e | ⟨lst, cnt⟩
    all_goals rw [hrm] at h
    all_goals dsimp only at h
    · exact absurd h (by simp)
    · refine ⟨lst, cnt, rfl, ?_⟩
      rcases hk : resp.queryKey with _ | qk
      · rw [if_pos (by rw [hk])] at h
        exact absurd h (by simp)
      · rw [if_neg (by rw [hk]; simp)] at h
        rcases hw : resp.webEnv with _ | we
        · rw [if_pos (by rw [hw])] at h
          exact absurd h (by simp)
        · rw [if_neg (by rw [hw]; simp)] at h
          by_cases hcnt : cnt ≠ (count_gt resp.fetchText : Int)
          · rw [if_pos hcnt] at h
            exact absurd h (by simp)
          · omega

/-- Witness for `ncbi_query_contract`: a two-accession batch with one
not-found accession satisfies the count accounting; a response with no
session token fails hard; and the successful concrete query returns with
a record count equal to the expected count. -/
theorem ncbi_query_contract_witness :
    ((1 : Int) = ((["WP_010248927.1", "AAA11111"] : List String).length : Int)
        - (["AAA11111"] : List String).length ∧
      (["WP_010248927.1"] : List String).length + (["AAA11111"] : List String).length
        = (["WP_010248927.1", "AAA11111"] : List String).length) ∧
    ncbi_query ["A"] ⟨[], none, none, ""⟩
      = .error "ERROR: NCBI query Key not found. Usually this means query size is too large." ∧
    (∃ lst cnt,
      remove_not_found ["WP_010248927.1", "AAA11111"] ["AAA11111"] = .ok (lst, cnt) ∧
      (count_gt ">WP_010248927.1 protein x\nMKV\n" : Int) = cnt) := by
  refine ⟨?_, ?_, ?_⟩
  · exact (ncbi_query_contract ["WP_010248927.1", "AAA11111"]
      ⟨["AAA11111"], some "1", some "env", ">WP_010248927.1 protein x\nMKV\n"⟩).1
      ["WP_010248927.1"] 1 (by rfl)
  · exact (ncbi_query_contract ["A"] ⟨[], none, none, ""⟩).2.1 rfl ["A"] 1 (by rfl)
  · exact (ncbi_query_contract ["WP_010248927.1", "AAA11111"]
      ⟨["AAA11111"], some "1", some "env", ">WP_010248927.1 protein x\nMKV\n"⟩).2.2
      ">WP_010248927.1 protein x\nMKV\n" 1 (by rfl)

/-! ### Adaptive batch fetch loop (`Cazy_Scrape.main` lines 605-632;
`NCBIQueries.ncbi_protein_query` is the same loop) -/

/-- `NCBI_EXCEPTION_MAX_TRIES`: the maximum cumulative failure count. -/
def NCBI_EXCEPTION_MAX_TRIES : Nat := 100

/-- The NCBI fetch loop with the remote call abstracted as `oracle`
(returning `none` models an `NCBIException`): while `queried <
len(accession_list)`, query the sub-batch
`accession_list[queried:queried+ncbi_query_size]`; on success accumulate
the FASTA text and the success count and advance `queried` (clamped); on
failure increment the process-wide exception counter, abort once it
reaches `NCBI_EXCEPTION_MAX_TRIES`, otherwise halve the query size
(`math.ceil(size/2)`, so it never drops below 1) and retry.  The final
query size and exception count are returned alongside the fetched data
for observation. -/
def ncbi_protein_query (oracle : List String → Option (String × Nat))
    (accession_list : List String) (queried retrieved : Nat) (fasta_data : String)
    (ncbi_query_size ncbi_exception_count : Nat) (hqs : 0 < ncbi_query_size) :
    Except String (String × Nat × Nat × Nat × Nat) :=
  if hq : queried < accession_list.length then
    match oracle ((accession_list.drop queried).take ncbi_query_size) with
    | some (fasta_output, success_count) =>
      ncbi_protein_query oracle accession_list
        (min (queried + ncbi_query_size) accession_list.length)
        (retrieved + success_count) (fasta_data ++ fasta_output)
        ncbi_query_size ncbi_exception_count hqs
    | none =>
      if ncbi_exception_count + 1 < NCBI_EXCEPTION_MAX_TRIES then
        ncbi_protein_query oracle accession_list queried retrieved fasta_data
          ((ncbi_query_size + 1) / 2) (ncbi_exception_count + 1) (by omega)
      else
        .error "Exceeded maximum failed NCBI query attempts."
  else
    .ok (fasta_data, queried, retrieved, ncbi_query_size, ncbi_exception_count)
termination_by
  (NCBI_EXCEPTION_MAX_TRIES - ncbi_exception_count, accession_list.length - queried)
decreasing_by
  · apply Prod.Lex.right
    omega
  · apply Prod.Lex.left
    unfold NCBI_EXCEPTION_MAX_TRIES at *
    omega

/-- The simulated remote of the batch-shrink property: fails on every
sub-batch larger than `N`, succeeds (returning one FASTA record per
accession) at or below `N`. -/
def sim_remote (N : Nat) (batch : List String) : Option (String × Nat) :=
  if batch.length ≤ N then
    some (String.join (batch.map (fun a => ">" ++ a ++ "\n")), batch.length)
  else none

/-- Number of halvings `ceil(qs/2)` takes to bring `qs` to at most `N`
(the second guard only matters for `N = 0`). -/
def halvings_to_fit (N qs : Nat) : Nat :=
  if qs ≤ N then 0
  else if qs ≤ 1 then 0
  else halvings_to_fit N ((qs + 1) / 2) + 1
termination_by qs
decreasing_by omega

lemma halvings_le (N : Nat) : ∀ k qs, qs ≤ 2 ^ k → halvings_to_fit N qs ≤ k := by
  intro k
  induction k with
  | zero =>
    intro qs h
    unfold halvings_to_fit
    split
    · omega
    · split
      · omega
      · simp only [pow_zero] at h
        omega
  | succ k ih =>
    intro qs h
    unfold halvings_to_fit
    split
    · omega
    · split
      · omega
      · rename_i h1 h2
        have h3 : (qs + 1) / 2 ≤ 2 ^ k := by
          have : 2 ^ (k + 1) = 2 * 2 ^ k := by ring
          omega
        have := ih _ h3
        omega

lemma fetch_phaseB (N : Nat) (accs : List String) (qs : Nat) (hqs : 0 < qs)
    (hfit : qs ≤ N) :
    ∀ d queried retrieved fasta exc, accs.length - queried = d →
      queried ≤ accs.length →
      ∃ f, ncbi_protein_query (sim_remote N) accs queried retrieved fasta qs exc hqs
        = .ok (f, accs.length, retrieved + (accs.length - queried), qs, exc) := by
  intro d
  induction d using Nat.strong_induction_on with
  | _ d ih =>
    intro queried retrieved fasta exc hd hle
    by_cases hq : queried < accs.length
    · have hslice : ((accs.drop queried).take qs).length = min qs (accs.length - queried) := by
        simp [List.length_take, List.length_drop]
      have horacle : sim_remote N ((accs.drop queried).take qs)
          = some (String.join (((accs.drop queried).take qs).map (fun a => ">" ++ a ++ "\n")),
              ((accs.drop queried).take qs).length) := by
        unfold sim_remote
        rw [if_pos (by rw [hslice]; omega)]
      unfold ncbi_protein_query
      rw [dif_pos hq, horacle]
      dsimp only
      obtain ⟨f, hf⟩ := ih (accs.length - min (queried + qs) accs.length)
        (by omega) (min (queried + qs) accs.length)
        (retrieved + ((accs.drop queried).take qs).length)
        (fasta ++ String.join (((accs.drop queried).take qs).map (fun a => ">" ++ a ++ "\n")))
        exc rfl (by omega)
      refine ⟨f, ?_⟩
      rw [hf]
      have heq : retrieved + ((accs.drop queried).take qs).length
          + (accs.length - min (queried + qs) accs.length)
          = retrieved + (accs.length - queried) := by
        rw [hslice]
        omega
      rw [heq]
    · unfold ncbi_protein_query
      rw [dif_neg hq]
      refine ⟨fasta, ?_⟩
      have hq2 : queried = accs.length := by omega
      subst hq2
      simp

lemma fetch_sim_ok (N : Nat) (accs : List String) (hN : 1 ≤ N)
    (hlen : N < accs.length) :
    ∀ qs (hqs : 0 < qs) exc, exc + halvings_to_fit N qs < NCBI_EXCEPTION_MAX_TRIES →
      ∃ f qsF, ncbi_protein_query (sim_remote N) accs 0 0 "" qs exc hqs
        = .ok (f, accs.length, accs.length, qsF, exc + halvings_to_fit N qs) ∧ qsF ≤ N := by
  intro qs
  induction qs using Nat.strong_induction_on with
  | _ qs ih =>
    intro hqs exc hbudget
    by_cases hfit : qs ≤ N
    · obtain ⟨f, hf⟩ := fetch_phaseB N accs qs hqs hfit accs.length 0 0 "" exc rfl (by omega)
      have hh : halvings_to_fit N qs = 0 := by
        unfold halvings_to_fit
        rw [if_pos hfit]
      refine ⟨f, qs, ?_, hfit⟩
      rw [hf, hh]
      simp
    · push_neg at hfit
      have hq0 : 0 < accs.length := by omega
      have hslice : ((accs.drop 0).take qs).length = min qs accs.length := by
        simp [List.length_take]
      have horacle : sim_remote N ((accs.drop 0).take qs) = none := by
        unfold sim_remote
        rw [if_neg (by rw [hslice]; omega)]
      have hge1 : 1 ≤ halvings_to_fit N qs := by
        unfold halvings_to_fit
        rw [if_neg (by omega), if_neg (by omega)]
        omega
      have hrec : halvings_to_fit N qs = halvings_to_fit N ((qs + 1) / 2) + 1 := by
        conv_lhs => rw [halvings_to_fit]
        rw [if_neg (by omega), if_neg (by omega)]
      unfold ncbi_protein_query
      rw [dif_pos hq0, horacle]
      dsimp only
      rw [if_pos (by omega)]
      obtain ⟨f, qsF, hf, hqsF⟩ := ih ((qs + 1) / 2) (by omega) (by omega) (exc + 1) (by omega)
      refine ⟨f, qsF, ?_, hqsF⟩
      rw [hf]
      have heq : exc + 1 + halvings_to_fit N ((qs + 1) / 2) = exc + halvings_to_fit N qs := by
        omega
      rw [heq]

/-- C4: the fetch loop halves the sub-batch size on every failed
sub-batch query with a floor at 1, increments the process-wide failure
counter and aborts as non-recoverable once the cumulative count reaches
`NCBI_EXCEPTION_MAX_TRIES = 100`; and against a simulated remote that
fails every query of size above `N` and succeeds at or below `N`,
fetching a list larger than `N` (with the default starting query size
200 and a fresh failure counter) succeeds with a final sub-batch size at
most `N`, with the final queried count equal to the retrieved count
(both the full list length) since no accessions are invalid. -/
theorem ncbi_protein_query_batch_shrink (N : Nat) (accs : List String)
    (hN : 1 ≤ N) (hlen : N < accs.length) :
    (∀ qs : Nat, 1 ≤ qs → 1 ≤ (qs + 1) / 2) ∧
    (∀ queried retrieved fasta qs (hqs : 0 < qs),
      queried < accs.length →
      ncbi_protein_query (fun _ => none) accs queried retrieved fasta qs 99 hqs
        = .error "Exceeded maximum failed NCBI query attempts.") ∧
    (∃ fasta qsF excF,
      ncbi_protein_query (sim_remote N) accs 0 0 "" 200 0 (by omega)
        = .ok (fasta, accs.length, accs.length, qsF, excF) ∧ qsF ≤ N ∧
        excF < NCBI_EXCEPTION_MAX_TRIES) := by
  refine ⟨fun qs h => by omega, ?_, ?_⟩
  · intro queried retrieved fasta qs hqs hq
    unfold ncbi_protein_query
    rw [dif_pos hq]
    dsimp only
    rw [if_neg (by unfold NCBI_EXCEPTION_MAX_TRIES; omega)]
  · have h8 : halvings_to_fit N 200 ≤ 8 := halvings_le N 8 200 (by norm_num)
    have hbudget : 0 + halvings_to_fit N 200 < NCBI_EXCEPTION_MAX_TRIES := by
      unfold NCBI_EXCEPTION_MAX_TRIES
      omega
    obtain ⟨f, qsF, hf, hqsF⟩ := fetch_sim_ok N accs hN hlen 200 (by omega) 0 hbudget
    exact ⟨f, qsF, 0 + halvings_to_fit N 200, hf, hqsF, hbudget⟩

/-- Witness for `ncbi_protein_query_batch_shrink` at `N = 1` over a
two-accession list. -/
theorem ncbi_protein_query_batch_shrink_witness :
    ∃ fasta qsF excF,
      ncbi_protein_query (sim_remote 1) ["a", "b"] 0 0 "" 200 0 (by omega)
        = .ok (fasta, 2, 2, qsF, excF) ∧ qsF ≤ 1 ∧
        excF < NCBI_EXCEPTION_MAX_TRIES := by
  have h := (ncbi_protein_query_batch_shrink 1 ["a", "b"] (by omega) (by simp)).2.2
  simpa using h

/-! ### Multi-source record merger (`ParseUserSequences.merge_data_sources`,
`utils/FastaHelpers.parse_multiple_fasta`, `utils/UserFastaRename`) -/

/-- A BioPython `SeqRecord` as the merger reads and mutates it. -/
structure SeqRec where
  id : String
  name : String
  description : String
deriving DecidableEq

/-- `utils/Formatting.CazymeMetadataRecord`, the fields the merger
touches. -/
structure CazymeMetadataRecord where
  source_file : String
  protein_id : String
  protein_name : String
  org_name : Option String
deriving DecidableEq

/-- A dynamically-typed element of the `non_cazy_seqs` Python list: a
plain string (a dict key leaked by `list += dict`) or a `SeqRecord`. -/
inductive PyObj where
  | pstr (s : String)
  | pseq (r : SeqRec)
deriving DecidableEq

/-- Python exceptions the merger and renamer can raise. -/
inductive PyErr where
  | attributeError (msg : String)
  | typeError (msg : String)
  | keyError (msg : String)
  | userWarning (msg : String)
  | pipelineException (msg : String)
  | systemExit (code : Nat)
deriving DecidableEq

/-- Content strictly before the last `]` of the list, when a `]`
exists. -/
def last_rbracket_content : List Char → Option (List Char)
  | [] => none
  | c :: cs =>
    match last_rbracket_content cs with
    | some g => some (c :: g)
    | none => if c = ']' then some [] else none

/-- `re.search(r'\[(.+)\]', s)`: the group of the leftmost match — the
content between the first viable `[` and the last `]`, which must be
non-empty (greedy `.+`). -/
def species_search : List Char → Option (List Char)
  | [] => none
  | c :: rest =>
    if c = '[' then
      match last_rbracket_content rest with
      | some g => if g.length ≥ 1 then some g else species_search rest
      | none => species_search rest
    else species_search rest

/-- State of the `parse_multiple_fasta` record loop:
`(metadata_dict, all_seqs, duplicate_counts)`. -/
structure PmfState where
  metadata_dict : List (String × CazymeMetadataRecord)
  all_seqs : List (String × SeqRec)
  duplicate_counts : List (String × Nat)

/-- One record of `parse_multiple_fasta` (`utils/FastaHelpers.py` lines
131-167): re-key an already-present duplicate ID with a
`[Duplicate-User-ID-1]` suffix, rename the current record with the next
numbered suffix, annotate multi-file provenance in the description, and
insert the metadata record (with the organism extracted from the
description) and the sequence record. -/
def pmf_record_step (nfiles : Nat) (source_override : Option String) (path : String)
    (st : PmfState) (record : SeqRec) : PmfState :=
  let old_id := record.id
  let st :=
    if dmem record.id st.metadata_dict then
      match dlookup old_id st.metadata_dict, dlookup old_id st.all_seqs with
      | some mrec, some srec =>
        let dc := dinsert old_id 1 st.duplicate_counts
        let new_id := mrec.protein_id ++ "[Duplicate-User-ID-1]"
        let mrec2 := { mrec with protein_id := new_id }
        let md := derase old_id (dinsert new_id mrec2
          (dupdate old_id (fun _ => mrec2) st.metadata_dict))
        let srec2 := { srec with
          id := new_id
          description := replacePy srec.description old_id new_id
          name := replacePy srec.name old_id new_id }
        let sq := derase old_id (dinsert new_id srec2
          (dupdate old_id (fun _ => srec2) st.all_seqs))
        ⟨md, sq, dc⟩
      | _, _ => st
    else st
  let step2 :=
    if dmem record.id st.duplicate_counts then
      let cnt := (dlookup record.id st.duplicate_counts).getD 0 + 1
      let dc := dinsert record.id cnt st.duplicate_counts
      let new_id := record.id ++ "[Duplicate-User-ID-" ++ toString cnt ++ "]"
      ({ record with
        id := new_id
        name := replacePy record.name old_id new_id
        description := replacePy record.description old_id new_id }, new_id, dc)
    else (record, record.id, st.duplicate_counts)
  let record := step2.1
  let record_id := step2.2.1
  let record :=
    if nfiles > 1 ∧ source_override = none then
      { record with description :=
          record.description ++ " SACCHARIS merged record from " ++ path }
    else record
  let new_record : CazymeMetadataRecord :=
    { source_file := source_override.getD path,
      protein_id := record_id,
      protein_name := record.description,
      org_name := (species_search record.description.toList).map
        (fun g => (⟨g⟩ : String)) }
  ⟨dinsert record_id new_record st.metadata_dict,
    dinsert record_id record st.all_seqs, step2.2.2⟩

/-- `utils/FastaHelpers.parse_multiple_fasta` over already-parsed files
(each a path with its record list); the optional on-disk write of the
merged FASTA is not taken on the merger's call path
(`output_folder=None`). Returns `(all_seqs, metadata_dict)`. -/
def parse_multiple_fasta (files : List (String × List SeqRec))
    (source_override : Option String) :
    List (String × SeqRec) × List (String × CazymeMetadataRecord) :=
  let st := files.foldl
    (fun st pf => pf.2.foldl (pmf_record_step files.length source_override pf.1) st)
    ⟨[], [], []⟩
  (st.all_seqs, st.metadata_dict)

/-- `UIDValidator.uid_checker = re.compile('U[0-9]{1,9}')`, used with
`.match`: an anchored prefix of `U` followed by at least one digit. -/
def uid_match (id : String) : Bool :=
  match id.toList with
  | 'U' :: c :: _ => c.isDigit
  | _ => false

/-- Outcome of the `UIDValidator` loop over `non_cazy_seqs`. -/
inductive ValidateOutcome where
  | ok
  | userError (msg : String)
  | attrError
deriving DecidableEq

/-- The validation loop (`ParseUserSequences.py` lines 298-305 and
`UIDValidator.validate_uid`): a plain string element raises
`AttributeError` at `.id` (not caught by the `except UserError`), an
invalid or duplicated user ID raises `UserError` (caught, triggering the
rename path). -/
def validate_uids (uid_list : List String) : List PyObj → ValidateOutcome
  | [] => .ok
  | .pstr _ :: _ => .attrError
  | .pseq r :: rest =>
    if !(uid_match r.id) then
      .userError ("Record with id " ++ r.id ++ " does not have a valid user header.")
    else if r.id ∈ uid_list then
      .userError ("User id " ++ r.id ++ " is duplicated in user file!")
    else
      validate_uids (r.id :: uid_list) rest

/-- Decimal digits of `n` (structural via fuel; 10 digits suffice for
every index the renamer produces). -/
def natDigits (fuel n : Nat) : List Char :=
  match fuel with
  | 0 => []
  | fuel + 1 =>
    if n < 10 then [Char.ofNat (48 + n)]
    else natDigits fuel (n / 10) ++ [Char.ofNat (48 + n % 10)]

/-- `f"U{i:09d}"`: the zero-padded replacement user ID. -/
def user_uid (i : Nat) : String :=
  let ds := natDigits 10 i
  ⟨['U'] ++ List.replicate (9 - ds.length) '0' ++ ds⟩

/-- The body loop of `prepend_user_headers` (`utils/UserFastaRename.py`
lines 64-76): for the `i`-th record, `metadata[record.id]` is evaluated —
`record.id` on a plain string raises `AttributeError`, subscripting a
`None` metadata raises `TypeError`, a missing key raises `KeyError` —
then the record is renamed to `U{i:09d}` in place. -/
def prepend_fold (metadata : Option (List (String × CazymeMetadataRecord))) :
    Nat → List PyObj → Except PyErr (List PyObj × List (String × CazymeMetadataRecord))
  | _, [] => .ok ([], [])
  | i, obj :: rest =>
    match obj with
    | .pstr _ => .error (.attributeError "str object has no attribute id")
    | .pseq r =>
      match metadata with
      | none => .error (.typeError "NoneType object is not subscriptable")
      | some md =>
        match dlookup r.id md with
        | none => .error (.keyError r.id)
        | some mrec =>
          let new_id := user_uid i
          let r2 := { r with
            description := new_id ++ " " ++ r.description
            name := new_id
            id := new_id }
          match prepend_fold metadata (i + 1) rest with
          | .error e => .error e
          | .ok (srest, mrest) => .ok (.pseq r2 :: srest, (new_id, mrec) :: mrest)

/-- `UserFastaRename.prepend_user_headers`: an empty sequence list raises
`UserWarning`, otherwise the records are renamed (mutated in place when
`inplace=True`) and the re-keyed metadata is returned. -/
def prepend_user_headers (seqs : List PyObj)
    (metadata : Option (List (String × CazymeMetadataRecord))) :
    Except PyErr (List PyObj × List (String × CazymeMetadataRecord)) :=
  if seqs.length = 0 then
    .error (.userWarning
      "File contains no valid sequences! Check that the file is in a valid FASTA format.")
  else
    prepend_fold metadata 0 seqs

/-- `UserFastaRename.rename_fasta_file` after a successful FASTA parse
(abstracted to the parsed record list): always calls
`prepend_user_headers(seqs, inplace=True)` with the `metadata` parameter
left at its `None` default, then would write the renamed records. -/
def rename_fasta_file (seqs : List SeqRec) : Except PyErr (List SeqRec) :=
  match prepend_user_headers (seqs.map PyObj.pseq) none with
  | .error e => .error e
  | .ok _ => .ok seqs

/-- `cazy_metadata` after the `None` normalization of
`ParseUserSequences.py` lines 257-258: a `None` argument becomes an empty
Python *list* (`[]`), not an empty dict. -/
inductive PyMeta where
  | plist (l : List CazymeMetadataRecord)
  | pdict (d : List (String × CazymeMetadataRecord))
deriving DecidableEq

/-- `if cazy_metadata is None: cazy_metadata = []`. -/
def normalize_cazy_metadata :
    Option (List (String × CazymeMetadataRecord)) → PyMeta
  | none => .plist []
  | some d => .pdict d

/-- The union `cazy_metadata | non_cazy_metadata` of line 318: `|` on a
Python list and a dict is an unsupported operation (`TypeError`); on two
dicts it is the right-biased dict union. -/
def pyMetaUnion (a : PyMeta) (b : List (String × CazymeMetadataRecord)) :
    Except PyErr (List (String × CazymeMetadataRecord))  :=
  match a with
  | .plist _ => .error (.typeError "unsupported operand type(s) for |: list and dict")
  | .pdict d => .ok (dunion d b)

/-- User-source collection (`ParseUserSequences.py` lines 263-282): parse
the user files; an empty parse raises `UserWarning`, caught and routed
through the continue-without-user-sequences prompt (`sys.exit()` unless
`not skip_user_ask and answer`); otherwise `non_cazy_seqs += fasta_seqs`
extends the list with the KEYS of the returned dict (plain strings), and
the metadata dicts are unioned. -/
def collect_user_source (user_file_paths : Option (List (String × List SeqRec)))
    (skip_user_ask ask_answer : Bool) :
    Except PyErr (List PyObj × List (String × CazymeMetadataRecord)) :=
  match user_file_paths with
  | none => .ok ([], [])
  | some ufs =>
    let parsed := parse_multiple_fasta ufs none
    if parsed.1.length = 0 then
      if !skip_user_ask && ask_answer then .ok ([], [])
      else .error (.systemExit 0)
    else
      .ok (parsed.1.map (fun kv => PyObj.pstr kv.1), parsed.2)

/-- UID validation and the rename path (`ParseUserSequences.py` lines
296-316): a `UserError` triggers `prepend_user_headers(non_cazy_seqs,
non_cazy_metadata, inplace=True)` when renaming is allowed (the renamed
in-place sequence list is kept, the returned re-keyed metadata is
discarded), otherwise `sys.exit(3)`; an `AttributeError` from a
string element propagates uncaught. -/
def validate_or_rename (objs : List PyObj)
    (md : List (String × CazymeMetadataRecord))
    (auto_rename skip_user_ask ask_answer : Bool) : Except PyErr (List PyObj) :=
  match validate_uids [] objs with
  | .ok => .ok objs
  | .attrError => .error (.attributeError "str object has no attribute id")
  | .userError _ =>
    let rename := if !auto_rename && !skip_user_ask then ask_answer else false
    if rename || auto_rename || skip_user_ask then
      match prepend_user_headers objs (some md) with
      | .error e => .error e
      | .ok (renamed, _discarded) => .ok renamed
    else .error (.systemExit 3)

/-- `id` of every element of `all_seqs` (only evaluated on record
elements; a string element raises before this is used). -/
def pyobj_id : PyObj → String
  | .pstr _ => ""
  | .pseq r => r.id

/-- First-occurrence-order deduplication. -/
def dedup_first (seen : List String) : List String → List String
  | [] => []
  | x :: xs => if x ∈ seen then dedup_first seen xs else x :: dedup_first (x :: seen) xs

/-- `ParseUserSequences.find_duplicates`: the elements occurring more
than once, in first-occurrence order (as `collections.Counter` yields
them). -/
def find_duplicates (elements : List String) : List String :=
  dedup_first [] (elements.filter (fun x => elements.count x > 1))

/-- `ParseUserSequences.merge_data_sources` (the NCBI genome/gene
download sources are not requested, i.e. `None`, on the modelled calls;
`force_update=False`, so no prior files are deleted; the trailing run-id
hashing and FASTA write are beyond the merge step the claims concern and
are abstracted into the returned merged pair). -/
def merge_data_sources (cazy_seqs : Option (List SeqRec))
    (cazy_metadata : Option (List (String × CazymeMetadataRecord)))
    (user_file_paths : Option (List (String × List SeqRec)))
    (auto_rename skip_user_ask ask_answer : Bool) :
    Except PyErr (List PyObj × List (String × CazymeMetadataRecord)) :=
  let cs := cazy_seqs.getD []
  match collect_user_source user_file_paths skip_user_ask ask_answer with
  | .error e => .error e
  | .ok (non_cazy_seqs, non_cazy_metadata) =>
    match validate_or_rename non_cazy_seqs non_cazy_metadata
        auto_rename skip_user_ask ask_answer with
    | .error e => .error e
    | .ok non_cazy_seqs2 =>
      match pyMetaUnion (normalize_cazy_metadata cazy_metadata) non_cazy_metadata with
      | .error e => .error e
      | .ok all_metadata =>
        let all_seqs := cs.map PyObj.pseq ++ non_cazy_seqs2
        if all_seqs.length ≠ all_metadata.length then
          if all_seqs.any (fun o => match o with | .pstr _ => true | .pseq _ => false) then
            .error (.attributeError "str object has no attribute id")
          else
            .error (.pipelineException
              ("Length of user sequence array and user sequence metadata array do not match. "
                ++ "Duplicated IDs: "
                ++ joinSep ", " (find_duplicates (all_seqs.map pyobj_id))))
        else
          .ok (all_seqs, all_metadata)

/-- C2 (evaluation at the claim's failing input): merging two user files
that each contain accession `"ABC12345.1"` does not fail with an error
naming `"ABC12345.1"` — `parse_multiple_fasta` renames the duplicate with
a `[Duplicate-User-ID-n]` suffix, and the merge then crashes with an
uncaught `AttributeError`, because `non_cazy_seqs += fasta_seqs` extends
the sequence list with the KEYS of the returned dict (plain strings) and
the UID validator calls `.id` on them.  Merging two user files with
disjoint accessions crashes identically instead of succeeding. -/
theorem merge_user_files_attribute_error :
    merge_data_sources (some []) (some [])
        (some [("a.fasta", [⟨"ABC12345.1", "ABC12345.1", "ABC12345.1 protein A"⟩]),
               ("b.fasta", [⟨"ABC12345.1", "ABC12345.1", "ABC12345.1 protein A"⟩])])
        true false true
      = .error (.attributeError "str object has no attribute id") ∧
    merge_data_sources (some []) (some [])
        (some [("a.fasta", [⟨"AAA11111.1", "AAA11111.1", "AAA11111.1 protein A"⟩]),
               ("b.fasta", [⟨"BBB22222.1", "BBB22222.1", "BBB22222.1 protein B"⟩])])
        true false true
      = .error (.attributeError "str object has no attribute id") :=
  ⟨rfl, rfl⟩

/-- C9: a `merge_data_sources` call with `cazy_metadata = None` can never
produce a successful merge: the `None` is normalized to an empty Python
list (not a dict), and the union `cazy_metadata | non_cazy_metadata` at
the merge step is an unsupported list-dict operation — every call that
reaches the merge step raises `TypeError` there, and every other call
fails earlier. -/
theorem merge_none_cazy_metadata_type_error :
    (∀ (cazy_seqs : Option (List SeqRec))
        (user_file_paths : Option (List (String × List SeqRec)))
        (auto_rename skip_user_ask ask_answer : Bool),
      (merge_data_sources cazy_seqs none user_file_paths
          auto_rename skip_user_ask ask_answer).isOk = false) ∧
    (∀ (cazy_seqs : Option (List SeqRec))
        (user_file_paths : Option (List (String × List SeqRec)))
        (auto_rename skip_user_ask ask_answer : Bool)
        (objs : List PyObj) (md : List (String × CazymeMetadataRecord))
        (objs2 : List PyObj),
      collect_user_source user_file_paths skip_user_ask ask_answer = .ok (objs, md) →
      validate_or_rename objs md auto_rename skip_user_ask ask_answer = .ok objs2 →
      merge_data_sources cazy_seqs none user_file_paths
          auto_rename skip_user_ask ask_answer
        = .error (.typeError "unsupported operand type(s) for |: list and dict")) ∧
    merge_data_sources none none none false false false
      = .error (.typeError "unsupported operand type(s) for |: list and dict") := by
  refine ⟨?_, ?_, rfl⟩
  · intro cs ufs a sk ask
    unfold merge_data_sources
    rcases hc : collect_user_source ufs sk ask with e | ⟨objs, md⟩
    · rfl
    · dsimp only
      rcases hv : validate_or_rename objs md a sk ask with e | objs2
      · rfl
      · rfl
  · intro cs ufs a sk ask objs md objs2 hc hv
    unfold merge_data_sources
    rw [hc]
    dsimp only
    rw [hv]
    rfl

/-- Witness for `merge_none_cazy_metadata_type_error`: the no-source
call reaches the merge step (collection and validation both succeed on
empty inputs) and raises the `TypeError`. -/
theorem merge_none_cazy_metadata_type_error_witness :
    merge_data_sources none none none true false false
      = .error (.typeError "unsupported operand type(s) for |: list and dict") :=
  merge_none_cazy_metadata_type_error.2.1 none none true false false [] [] []
    rfl rfl

/-- C10: `prepend_user_headers` with its default `metadata = None` raises
`TypeError` on the first record of every non-empty sequence list (the
`None` metadata mapping is subscripted), and raises `UserWarning` on an
empty list; since `rename_fasta_file` always invokes it without a
metadata argument, `rename_fasta_file` fails with that `TypeError` for
every parseable FASTA file with at least one record and with the
`UserWarning` for files with zero records. -/
theorem prepend_rename_none_metadata (seqs : List SeqRec) :
    (seqs ≠ [] →
      prepend_user_headers (seqs.map PyObj.pseq) none
        = .error (.typeError "NoneType object is not subscriptable") ∧
      rename_fasta_file seqs
        = .error (.typeError "NoneType object is not subscriptable")) ∧
    (seqs = [] →
      prepend_user_headers (seqs.map PyObj.pseq) none
        = .error (.userWarning
            "File contains no valid sequences! Check that the file is in a valid FASTA format.") ∧
      rename_fasta_file seqs
        = .error (.userWarning
            "File contains no valid sequences! Check that the file is in a valid FASTA format.")) := by
  constructor
  · intro hne
    rcases seqs with _ | ⟨r, rest⟩
    · exact absurd rfl hne
    · exact ⟨rfl, rfl⟩
  · intro he
    subst he
    exact ⟨rfl, rfl⟩

/-- Witness for `prepend_rename_none_metadata` on a one-record list and
on the empty list. -/
theorem prepend_rename_none_metadata_witness :
    (prepend_user_headers (([⟨"x", "x", "x desc"⟩] : List SeqRec).map PyObj.pseq) none
        = .error (.typeError "NoneType object is not subscriptable") ∧
      rename_fasta_file [⟨"x", "x", "x desc"⟩]
        = .error (.typeError "NoneType object is not subscriptable")) ∧
    (prepend_user_headers (([] : List SeqRec).map PyObj.pseq) none
        = .error (.userWarning
            "File contains no valid sequences! Check that the file is in a valid FASTA format.") ∧
      rename_fasta_file ([] : List SeqRec)
        = .error (.userWarning
            "File contains no valid sequences! Check that the file is in a valid FASTA format.")) :=
  ⟨(prepend_rename_none_metadata [⟨"x", "x", "x desc"⟩]).1 (by simp),
    (prepend_rename_none_metadata []).2 rfl⟩
